import Mathlib

/-!
Verification of the voice interaction controller of the anesthesia
oral-exam practice tool.

The development shallowly embeds the controller implemented in
`src/hooks/useSpeech.ts`, the voice-command effect of
`src/app/practice/page.tsx`, and the generator-service wrappers of
`lib/gemini.ts`.  Stateful hook code is embedded as explicit state
passing over a `SpeechState` record together with a step function over
an operation/event alphabet; the host speech facilities (recognition
sessions, synthesis queue, timers, `JSON.parse`) are modelled by the
events the code reacts to.
-/

namespace OralExam

/-! ## Command classifier (`VOICE_COMMANDS` and the matcher in `recognition.onresult`) -/

/-- Command symbols, in the declaration order of the `VOICE_COMMANDS` table. -/
inductive CommandSymbol
  | START_ANSWER
  | STOP_ANSWER
  | NEXT
  | REPEAT
  | SKIP
deriving DecidableEq, Repr, Fintype

/-- Trigger phrases per symbol, exactly the `VOICE_COMMANDS` table of
`useSpeech.ts` (lines 82-88). -/
def triggers : CommandSymbol → List String
  | .START_ANSWER => ["回答開始", "開始", "かいとうかいし", "かいし", "スタート"]
  | .STOP_ANSWER  => ["回答終了", "終了", "かいとうしゅうりょう", "しゅうりょう", "ストップ"]
  | .NEXT         => ["次へ", "つぎへ", "次", "つぎ", "ネクスト"]
  | .REPEAT       => ["もう一度", "もういちど", "繰り返し", "くりかえし", "リピート"]
  | .SKIP         => ["スキップ", "パス"]

/-- Position of a symbol in the declaration order of the table
(the iteration order of `Object.entries(VOICE_COMMANDS)`). -/
def orderIdx : CommandSymbol → Nat
  | .START_ANSWER => 0
  | .STOP_ANSWER  => 1
  | .NEXT         => 2
  | .REPEAT       => 3
  | .SKIP         => 4

/-- Model of `text.toLowerCase()`.  ASCII case folding; the trigger
phrases of the table contain no cased characters, so the behaviour on
the table itself is identical to the host function. -/
def toLowerString (s : String) : String := String.mk (s.data.map Char.toLower)

/-- Boolean prefix test on character lists. -/
def isPrefixB : List Char → List Char → Bool
  | [], _ => true
  | _ :: _, [] => false
  | a :: as, b :: bs => a == b && isPrefixB as bs

/-- Boolean substring test: does `needle` occur as a contiguous run in `hay`? -/
def isSubB (needle : List Char) : List Char → Bool
  | [] => isPrefixB needle []
  | b :: bs => isPrefixB needle (b :: bs) || isSubB needle bs

/-- Model of JavaScript `hay.includes(needle)`: substring containment. -/
def strIncludes (hay needle : String) : Bool := isSubB needle.data hay.data

/-- One iteration test of the classifier loop:
`triggers.some(trigger => lowerText.includes(trigger))` applied to the
lower-cased utterance. -/
def matchesSymbol (t : String) (c : CommandSymbol) : Bool :=
  (triggers c).any (fun trig => strIncludes (toLowerString t) trig)

/-- The command classifier of `recognition.onresult` (lines 126-135):
the loop over `Object.entries(VOICE_COMMANDS)` with `break` on the
first symbol one of whose triggers occurs in the lower-cased text. -/
def classify (t : String) : Option CommandSymbol :=
  if matchesSymbol t .START_ANSWER then some .START_ANSWER
  else if matchesSymbol t .STOP_ANSWER then some .STOP_ANSWER
  else if matchesSymbol t .NEXT then some .NEXT
  else if matchesSymbol t .REPEAT then some .REPEAT
  else if matchesSymbol t .SKIP then some .SKIP
  else none

example : classify "hello" = none := by decide
example : classify "次へ" = some .NEXT := by decide
example : classify "はい、スキップでお願いします" = some .SKIP := by decide
example : classify "開始して終了" = some .START_ANSWER := by decide

/-- A trigger of `c` occurring in the lower-cased text makes `c` match. -/
lemma matchesSymbol_of_trigger {s p : String} {c : CommandSymbol}
    (hp : p ∈ triggers c) (hinc : strIncludes (toLowerString s) p = true) :
    matchesSymbol s c = true := by
  simp only [matchesSymbol, List.any_eq_true]
  exact ⟨p, hp, hinc⟩

/-- If the classifier returns no command, no symbol matches the text. -/
lemma matchesSymbol_false_of_classify_none {s : String} (c : CommandSymbol)
    (h : classify s = none) : matchesSymbol s c = false := by
  unfold classify at h
  cases h1 : matchesSymbol s .START_ANSWER <;>
    cases h2 : matchesSymbol s .STOP_ANSWER <;>
      cases h3 : matchesSymbol s .NEXT <;>
        cases h4 : matchesSymbol s .REPEAT <;>
          cases h5 : matchesSymbol s .SKIP <;>
            simp_all <;> cases c <;> simp_all

/-- C1: the command classifier is a pure function of the utterance text.
A trigger phrase `p` of symbol `c` contained in the (lower-case
normalized) utterance yields `c` whenever no symbol earlier in the
table-declaration order (START_ANSWER, STOP_ANSWER, NEXT, REPEAT, SKIP)
also matches; a string matching no symbol's trigger classifies to
`none`; any matching string classifies to some symbol; and when triggers
of several symbols co-occur, the classified symbol is the first matching
one in table-declaration order. -/
theorem classifier_pure_table_order :
    (∀ (s : String) (c : CommandSymbol) (p : String),
        p ∈ triggers c → strIncludes (toLowerString s) p = true →
        (∀ c', orderIdx c' < orderIdx c → matchesSymbol s c' = false) →
        classify s = some c)
  ∧ (∀ s : String, (∀ c, matchesSymbol s c = false) → classify s = none)
  ∧ (∀ (s : String) (c : CommandSymbol), matchesSymbol s c = true → classify s ≠ none)
  ∧ (∀ (s : String) (c c' : CommandSymbol),
        matchesSymbol s c = true → classify s = some c' → orderIdx c' ≤ orderIdx c) := by
  refine ⟨?_, ?_, ?_, ?_⟩
  · intro s c p hp hinc hearl
    have hm : matchesSymbol s c = true := matchesSymbol_of_trigger hp hinc
    cases c
    case START_ANSWER => simp [classify, hm]
    case STOP_ANSWER =>
      have h0 := hearl .START_ANSWER (by decide)
      simp [classify, hm, h0]
    case NEXT =>
      have h0 := hearl .START_ANSWER (by decide)
      have h1 := hearl .STOP_ANSWER (by decide)
      simp [classify, hm, h0, h1]
    case REPEAT =>
      have h0 := hearl .START_ANSWER (by decide)
      have h1 := hearl .STOP_ANSWER (by decide)
      have h2 := hearl .NEXT (by decide)
      simp [classify, hm, h0, h1, h2]
    case SKIP =>
      have h0 := hearl .START_ANSWER (by decide)
      have h1 := hearl .STOP_ANSWER (by decide)
      have h2 := hearl .NEXT (by decide)
      have h3 := hearl .REPEAT (by decide)
      simp [classify, hm, h0, h1, h2, h3]
  · intro s h
    simp [classify, h .START_ANSWER, h .STOP_ANSWER, h .NEXT, h .REPEAT, h .SKIP]
  · intro s c hm hnone
    have := matchesSymbol_false_of_classify_none c hnone
    simp_all
  · intro s c c' hm hcl
    cases h1 : matchesSymbol s .START_ANSWER <;>
      cases h2 : matchesSymbol s .STOP_ANSWER <;>
        cases h3 : matchesSymbol s .NEXT <;>
          cases h4 : matchesSymbol s .REPEAT <;>
            cases h5 : matchesSymbol s .SKIP <;>
              simp_all [classify] <;>
                (cases hcl ; first | decide | (cases c <;> simp_all [orderIdx]))

/-- Witness for C1: the REPEAT trigger (もう一度) inside a longer
utterance classifies to REPEAT, and an utterance with no trigger
classifies to no command. -/
theorem classifier_pure_table_order_witness :
    classify "では、もう一度お願いします" = some CommandSymbol.REPEAT ∧ classify "echo" = none :=
  ⟨classifier_pure_table_order.1 _ _ "もう一度" (by decide) (by decide) (by decide),
   classifier_pure_table_order.2.1 _ (by decide)⟩

/-! ## Capture controller state (`useSpeech.ts`)

The hook keeps `isListening`/`isRecordingAnswer` both as React state and
as refs that are always written together; each pair is modelled as one
Boolean field.  `recognitionSupported` models whether
`recognitionRef.current` is non-null, `sessionRunning` whether the host
recognition session is currently started, and `restartPending` whether
the `setTimeout` restart of `recognition.onend` is scheduled.  Host
calls that can throw (`recognition.start()`) take the host outcome as an
explicit Boolean parameter. -/

structure SpeechState where
  isListening : Bool
  isRecordingAnswer : Bool
  transcript : String
  lastCommand : Option CommandSymbol
  recognitionSupported : Bool
  sessionRunning : Bool
  restartPending : Bool
deriving DecidableEq, Repr

/-- State of the hook right after initialization: nothing listening,
empty transcript, no pending command. -/
def initSpeech (supported : Bool) : SpeechState :=
  { isListening := false
    isRecordingAnswer := false
    transcript := ""
    lastCommand := none
    recognitionSupported := supported
    sessionRunning := false
    restartPending := false }

/-- The `startCommandListening` callback (lines 193-204): if a
recognition object exists and we are not already listening, call
`recognition.start()` (outcome `ok`); on success set the listening
flag/ref, on an exception only log. -/
def startCommandListening (ok : Bool) (s : SpeechState) : SpeechState :=
  if s.recognitionSupported && !s.isListening then
    if ok then { s with sessionRunning := true, isListening := true } else s
  else s

/-- The `stopCommandListening` callback (lines 207-216): if a
recognition object exists, clear the listening and recording flags/refs
and call `recognition.stop()`. -/
def stopCommandListening (s : SpeechState) : SpeechState :=
  if s.recognitionSupported then
    { s with isListening := false, isRecordingAnswer := false, sessionRunning := false }
  else s

/-- The `startAnswerRecording` callback (lines 219-229): clear the
transcript, set the recording flag/ref, and if we are not listening call
`startCommandListening`. -/
def startAnswerRecording (ok : Bool) (s : SpeechState) : SpeechState :=
  let s1 := { s with transcript := "", isRecordingAnswer := true }
  if !s1.isListening then startCommandListening ok s1 else s1

/-- The `stopAnswerRecording` callback (lines 232-236). -/
def stopAnswerRecording (s : SpeechState) : SpeechState :=
  { s with isRecordingAnswer := false }

/-- The `resetTranscript` callback (lines 238-240): it clears the
transcript state and nothing else. -/
def resetTranscript (s : SpeechState) : SpeechState :=
  { s with transcript := "" }

/-- The `clearLastCommand` callback (lines 242-244). -/
def clearLastCommand (s : SpeechState) : SpeechState :=
  { s with lastCommand := none }

/-- One iteration of the result loop of `recognition.onresult`
(lines 120-142), acting on the pair (pending `lastCommand` write,
`finalTranscript` accumulator); `recording` is the value of
`isRecordingAnswerRef.current`, constant throughout the handler. -/
def onresultAccum (recording : Bool) (st : Option CommandSymbol × String)
    (r : String × Bool) : Option CommandSymbol × String :=
  if r.2 then
    match classify r.1 with
    | some c => (some c, st.2)
    | none => (st.1, if recording then st.2 ++ r.1 else st.2)
  else st

/-- The `recognition.onresult` handler (lines 117-147) on one event
carrying the batch `results` of `(transcript, isFinal)` pairs: loop over
the results classifying each final one, then append the accumulated
`finalTranscript` to the transcript when it is non-empty and the
recording ref is set. -/
def recognitionOnresult (results : List (String × Bool)) (s : SpeechState) : SpeechState :=
  let res := results.foldl (onresultAccum s.isRecordingAnswer) (s.lastCommand, "")
  let s1 := { s with lastCommand := res.1 }
  if res.2 ≠ "" && s.isRecordingAnswer then
    { s1 with transcript := s1.transcript ++ res.2 }
  else s1

/-- The `recognition.onerror` handler (lines 149-154): the branch taken
for errors other than no-speech and aborted has an empty body (only a
comment), so no error changes any state. -/
def recognitionOnerror (err : String) (s : SpeechState) : SpeechState :=
  if err ≠ "no-speech" && err ≠ "aborted" then
    s
  else s

/-- The `recognition.onend` handler (lines 156-170): the host session
has terminated (`sessionRunning := false`); if the listening ref is set,
a restart is scheduled via `setTimeout(..., 100)`. -/
def recognitionOnend (s : SpeechState) : SpeechState :=
  let s0 := { s with sessionRunning := false }
  if s0.isListening then { s0 with restartPending := true } else s0

/-- Firing of the scheduled restart timeout (lines 159-168): if the
listening ref is still set and the recognition object exists, try
`recognition.start()` (outcome `ok`); an exception is only logged and
nothing is rescheduled. -/
def restartTimerFire (ok : Bool) (s : SpeechState) : SpeechState :=
  let s0 := { s with restartPending := false }
  if s0.isListening && s0.recognitionSupported then
    if ok then { s0 with sessionRunning := true } else s0
  else s0

/-- Operation/event alphabet of the controller; `ok` parameters are the
outcomes of the fallible host `recognition.start()` calls. -/
inductive SpeechOp
  | startListen (ok : Bool)
  | stopListen
  | startRec (ok : Bool)
  | stopRec
  | reset
  | clearCmd
  | result (rs : List (String × Bool))
  | err (e : String)
  | ended
  | timer (ok : Bool)

/-- Dispatch of one operation or host event. -/
def stepSpeech (s : SpeechState) : SpeechOp → SpeechState
  | .startListen ok => startCommandListening ok s
  | .stopListen => stopCommandListening s
  | .startRec ok => startAnswerRecording ok s
  | .stopRec => stopAnswerRecording s
  | .reset => resetTranscript s
  | .clearCmd => clearLastCommand s
  | .result rs => recognitionOnresult rs s
  | .err e => recognitionOnerror e s
  | .ended => recognitionOnend s
  | .timer ok => restartTimerFire ok s

/-- Run of a sequence of operations from a starting state. -/
def runSpeech (s : SpeechState) (ops : List SpeechOp) : SpeechState :=
  ops.foldl stepSpeech s

example :
    (runSpeech (initSpeech true) [.startListen true, .startRec true,
      .result [("こんにちは", true)]]).transcript = "こんにちは" := by decide
example :
    (runSpeech (initSpeech true) [.startListen true,
      .result [("次へ", true)]]).lastCommand = some .NEXT := by decide

/-! ## C2: transcript accumulation -/

/-- Concatenation, with no separator, of the texts of the final results
of a batch in which no command trigger is detected. -/
def dictation : List (String × Bool) → String
  | [] => ""
  | r :: rest => (if r.2 && (classify r.1).isNone then r.1 else "") ++ dictation rest

/-- The result loop with the recording ref set accumulates exactly the
final non-command texts onto the accumulator. -/
lemma onresultAccum_fold_recording (rs : List (String × Bool))
    (cmd : Option CommandSymbol) (acc : String) :
    (rs.foldl (onresultAccum true) (cmd, acc)).2 = acc ++ dictation rs := by
  induction rs generalizing cmd acc with
  | nil => simp [dictation, String.append_empty]
  | cons r rest ih =>
    simp only [List.foldl, dictation]
    cases hf : r.2 with
    | false => simp [onresultAccum, hf, ih, String.empty_append]
    | true =>
      cases hc : classify r.1 with
      | some c => simp [onresultAccum, hf, hc, ih, String.empty_append]
      | none => simp [onresultAccum, hf, hc, ih, String.append_assoc]

/-- The result loop with the recording ref clear never accumulates text. -/
lemma onresultAccum_fold_not_recording (rs : List (String × Bool))
    (cmd : Option CommandSymbol) (acc : String) :
    (rs.foldl (onresultAccum false) (cmd, acc)).2 = acc := by
  induction rs generalizing cmd acc with
  | nil => rfl
  | cons r rest ih =>
    simp only [List.foldl]
    cases hf : r.2 with
    | false => simp [onresultAccum, hf, ih]
    | true =>
      cases hc : classify r.1 with
      | some c => simp [onresultAccum, hf, hc, ih]
      | none => simp [onresultAccum, hf, hc, ih]

/-- C2: while the recording ref is set, an `onresult` batch appends to
the transcript exactly the final utterances in which no command trigger
is detected, concatenated in arrival order with no separator; while it
is clear, the transcript is unchanged; a final utterance containing a
command trigger is never appended; and the spec scenario — utterances
hello, 次へ, world spoken while recording — ends with transcript
helloworld. -/
theorem transcript_accumulates_non_command_only :
    (∀ (rs : List (String × Bool)) (s : SpeechState), s.isRecordingAnswer = true →
        (recognitionOnresult rs s).transcript = s.transcript ++ dictation rs)
  ∧ (∀ (rs : List (String × Bool)) (s : SpeechState), s.isRecordingAnswer = false →
        (recognitionOnresult rs s).transcript = s.transcript)
  ∧ (∀ (t : String) (s : SpeechState), classify t ≠ none →
        (recognitionOnresult [(t, true)] s).transcript = s.transcript)
  ∧ (runSpeech (initSpeech true) [.startRec true, .result [("hello", true)],
        .result [("次へ", true)], .result [("world", true)]]).transcript = "helloworld" := by
  refine ⟨?_, ?_, ?_, by decide⟩
  · intro rs s h
    by_cases hd : dictation rs = ""
    · simp [recognitionOnresult, h, onresultAccum_fold_recording, String.empty_append, hd,
        String.append_empty]
    · simp [recognitionOnresult, h, onresultAccum_fold_recording, String.empty_append, hd]
  · intro rs s h
    simp [recognitionOnresult, h]
  · intro t s hc
    cases hcl : classify t with
    | none => exact absurd hcl hc
    | some c => simp [recognitionOnresult, onresultAccum, hcl]

/-- Witness for C2: a dictation utterance while recording is appended, a
batch arriving while not recording leaves the transcript unchanged, and
a command utterance is never appended. -/
theorem transcript_accumulates_non_command_only_witness :
    ((recognitionOnresult [("麻酔", true)] (runSpeech (initSpeech true) [.startRec true])).transcript
        = (runSpeech (initSpeech true) [.startRec true]).transcript ++ dictation [("麻酔", true)])
  ∧ ((recognitionOnresult [("麻酔", true)] (initSpeech true)).transcript = (initSpeech true).transcript)
  ∧ ((recognitionOnresult [("次へ", true)] (runSpeech (initSpeech true) [.startRec true])).transcript
        = (runSpeech (initSpeech true) [.startRec true]).transcript) :=
  ⟨transcript_accumulates_non_command_only.1 _ _ (by decide),
   transcript_accumulates_non_command_only.2.1 _ _ (by decide),
   transcript_accumulates_non_command_only.2.2.1 _ _ (by decide)⟩

/-! ## C4, C5: capture error handling and restart policy -/

/-- C4 (the code evaluated at the failing input): the
`recognition.onerror` handler changes no state for any error code — its
branch for errors other than no-speech and aborted has an empty body —
so a fatal capture error (here network) received while listening leaves
the listening observable true and the session open, where the spec
requires the channel to close. -/
theorem onerror_never_closes_channel :
    (∀ (e : String) (s : SpeechState), recognitionOnerror e s = s)
  ∧ (runSpeech (initSpeech true) [.startListen true, .err "network"]).isListening = true
  ∧ runSpeech (initSpeech true) [.startListen true, .err "network"]
      = runSpeech (initSpeech true) [.startListen true] := by
  refine ⟨?_, by decide, by decide⟩
  intro e s
  unfold recognitionOnerror
  split <;> rfl

/-- C5: when the capture session ends spontaneously while the listening
intent is set, the observable listening state stays true, the session is
down and a restart is scheduled (the fixed 100 ms `setTimeout`); if the
restart attempt fails, the handler only logs — the underlying session
stays inactive and nothing is rescheduled — while a successful restart
brings the session back up. -/
theorem spontaneous_end_restart_policy (s : SpeechState)
    (h : s.isListening = true) (hsup : s.recognitionSupported = true) :
    ((stepSpeech s .ended).isListening = true
      ∧ (stepSpeech s .ended).restartPending = true
      ∧ (stepSpeech s .ended).sessionRunning = false)
  ∧ ((stepSpeech (stepSpeech s .ended) (.timer false)).sessionRunning = false
      ∧ (stepSpeech (stepSpeech s .ended) (.timer false)).restartPending = false
      ∧ (stepSpeech (stepSpeech s .ended) (.timer false)).isListening = true)
  ∧ (stepSpeech (stepSpeech s .ended) (.timer true)).sessionRunning = true := by
  simp [stepSpeech, recognitionOnend, restartTimerFire, h, hsup]

/-- Witness for C5: the restart policy applied to the state reached by
opening the capture channel. -/
theorem spontaneous_end_restart_policy_witness :
    ((stepSpeech (runSpeech (initSpeech true) [.startListen true]) .ended).isListening = true
      ∧ (stepSpeech (runSpeech (initSpeech true) [.startListen true]) .ended).restartPending = true
      ∧ (stepSpeech (runSpeech (initSpeech true) [.startListen true]) .ended).sessionRunning = false)
  ∧ ((stepSpeech (stepSpeech (runSpeech (initSpeech true) [.startListen true]) .ended)
        (.timer false)).sessionRunning = false
      ∧ (stepSpeech (stepSpeech (runSpeech (initSpeech true) [.startListen true]) .ended)
          (.timer false)).restartPending = false
      ∧ (stepSpeech (stepSpeech (runSpeech (initSpeech true) [.startListen true]) .ended)
          (.timer false)).isListening = true)
  ∧ (stepSpeech (stepSpeech (runSpeech (initSpeech true) [.startListen true]) .ended)
      (.timer true)).sessionRunning = true :=
  spontaneous_end_restart_policy _ (by decide) (by decide)

/-! ## C8: resetTranscript -/

/-- C8 (amended): `resetTranscript` clears the dictation buffer
independently of the recording state, but leaves the pending command
flag untouched; clearing `lastCommand` is the separate
`clearLastCommand` operation, itself also independent of the recording
state. -/
theorem reset_clears_buffer_only (s : SpeechState) :
    (resetTranscript s).transcript = ""
  ∧ (resetTranscript s).lastCommand = s.lastCommand
  ∧ (resetTranscript s).isRecordingAnswer = s.isRecordingAnswer
  ∧ (resetTranscript s).isListening = s.isListening
  ∧ (clearLastCommand s).lastCommand = none
  ∧ (clearLastCommand s).transcript = s.transcript
  ∧ (clearLastCommand s).isRecordingAnswer = s.isRecordingAnswer := by
  simp [resetTranscript, clearLastCommand]

/-- Counterexample for C8 as stated: after a command is detected,
calling `resetTranscript` leaves the pending command flag set — it does
not clear `lastCommand` to null. -/
theorem reset_leaves_lastCommand_cex :
    (runSpeech (initSpeech true)
        [.startListen true, .result [("次へ", true)], .reset]).lastCommand
      = some CommandSymbol.NEXT
  ∧ (runSpeech (initSpeech true)
        [.startListen true, .result [("次へ", true)], .reset]).transcript = "" := by decide

/-! ## C9: idempotence of opening and closing the capture channel -/

/-- C9: `startCommandListening` twice yields the same state as once
(the second call is a no-op on the already-listening channel), with the
listening observable true after a successful open; `stopCommandListening`
twice equals `stopCommandListening` once, leaving listening and
recording false. -/
theorem open_close_idempotent :
    (∀ (s : SpeechState) (ok : Bool),
        stepSpeech (stepSpeech s (.startListen ok)) (.startListen ok)
          = stepSpeech s (.startListen ok))
  ∧ (∀ s : SpeechState,
        stepSpeech (stepSpeech s .stopListen) .stopListen = stepSpeech s .stopListen)
  ∧ (∀ s : SpeechState, s.recognitionSupported = true →
        (stepSpeech s (.startListen true)).isListening = true)
  ∧ (∀ s : SpeechState, s.recognitionSupported = true →
        (stepSpeech (stepSpeech s .stopListen) .stopListen).isListening = false
      ∧ (stepSpeech (stepSpeech s .stopListen) .stopListen).isRecordingAnswer = false) := by
  refine ⟨?_, ?_, ?_, ?_⟩
  · intro s ok
    rcases s with ⟨l, r, t, c, sup, run, rp⟩
    cases sup <;> cases l <;> cases ok <;>
      simp [stepSpeech, startCommandListening]
  · intro s
    rcases s with ⟨l, r, t, c, sup, run, rp⟩
    cases sup <;> simp [stepSpeech, stopCommandListening]
  · intro s hsup
    rcases s with ⟨l, r, t, c, sup, run, rp⟩
    cases l <;> simp_all [stepSpeech, startCommandListening]
  · intro s hsup
    rcases s with ⟨l, r, t, c, sup, run, rp⟩
    simp_all [stepSpeech, stopCommandListening]

/-- Witness for C9: opening the fresh supported channel yields
listening, a second open is a no-op, and closing twice ends with
listening and recording false. -/
theorem open_close_idempotent_witness :
    (stepSpeech (initSpeech true) (.startListen true)).isListening = true
  ∧ stepSpeech (stepSpeech (initSpeech true) (.startListen true)) (.startListen true)
      = stepSpeech (initSpeech true) (.startListen true)
  ∧ ((stepSpeech (stepSpeech (initSpeech true) .stopListen) .stopListen).isListening = false
      ∧ (stepSpeech (stepSpeech (initSpeech true) .stopListen) .stopListen).isRecordingAnswer
          = false) :=
  ⟨open_close_idempotent.2.2.1 _ rfl, open_close_idempotent.1 _ _,
   open_close_idempotent.2.2.2 _ rfl⟩

/-! ## C6: recording implies listening -/

/-- An operation whose fallible host `recognition.start()` call (if any)
succeeded. -/
def opOk : SpeechOp → Bool
  | .startListen ok => ok
  | .startRec ok => ok
  | .timer ok => ok
  | _ => true

/-- No operation changes whether a recognition object exists. -/
lemma step_preserves_supported (s : SpeechState) (op : SpeechOp) :
    (stepSpeech s op).recognitionSupported = s.recognitionSupported := by
  cases op <;>
    simp [stepSpeech, startCommandListening, stopCommandListening, startAnswerRecording,
      stopAnswerRecording, resetTranscript, clearLastCommand, recognitionOnresult,
      recognitionOnerror, recognitionOnend, restartTimerFire] <;>
    repeat' (first | rfl | split <;> simp_all)

/-- A successful-host step preserves the invariant that recording
implies listening, on a supported channel. -/
lemma step_preserves_rec_imp_listen (s : SpeechState) (op : SpeechOp)
    (hsup : s.recognitionSupported = true) (hok : opOk op = true)
    (hinv : s.isRecordingAnswer = true → s.isListening = true) :
    (stepSpeech s op).isRecordingAnswer = true → (stepSpeech s op).isListening = true := by
  rcases s with ⟨l, r, t, c, sup, run, rp⟩
  cases op <;>
    simp_all [opOk, stepSpeech, startCommandListening, stopCommandListening,
      startAnswerRecording, stopAnswerRecording, resetTranscript, clearLastCommand,
      recognitionOnresult, recognitionOnerror, recognitionOnend, restartTimerFire] <;>
    cases l <;> cases r <;>
      repeat' (first | rfl | simp_all | split <;> simp_all)

/-- Runs from a supported state with only successful host calls
preserve support and the recording-implies-listening invariant. -/
lemma runSpeech_preserves_rec_imp_listen :
    ∀ (ops : List SpeechOp) (s : SpeechState), (∀ op ∈ ops, opOk op = true) →
      s.recognitionSupported = true → (s.isRecordingAnswer = true → s.isListening = true) →
      (runSpeech s ops).recognitionSupported = true
        ∧ ((runSpeech s ops).isRecordingAnswer = true → (runSpeech s ops).isListening = true)
  | [], _, _, h1, h2 => ⟨h1, h2⟩
  | op :: rest, s, hok, h1, h2 =>
    runSpeech_preserves_rec_imp_listen rest (stepSpeech s op)
      (fun o ho => hok o (List.mem_cons_of_mem _ ho))
      ((step_preserves_supported s op).trans h1)
      (step_preserves_rec_imp_listen s op h1 (hok op (List.mem_cons_self _ _)) h2)

/-- C6 (amended): in every state reachable through the controller's
operations on a supported channel in which every host
`recognition.start()` call succeeded, recording implies listening:
starting recording opens the channel if it is closed and closing the
channel clears the recording flag. -/
theorem recording_implies_listening_when_host_ok (ops : List SpeechOp)
    (hok : ∀ op ∈ ops, opOk op = true) :
    (runSpeech (initSpeech true) ops).isRecordingAnswer = true →
    (runSpeech (initSpeech true) ops).isListening = true :=
  (runSpeech_preserves_rec_imp_listen ops (initSpeech true) hok rfl (by simp [initSpeech])).2

/-- Witness for C6: the invariant holds at the state reached by
starting recording with a successful host open. -/
theorem recording_implies_listening_when_host_ok_witness :
    (∀ op ∈ [SpeechOp.startRec true], opOk op = true)
  ∧ ((runSpeech (initSpeech true) [SpeechOp.startRec true]).isRecordingAnswer = true →
      (runSpeech (initSpeech true) [SpeechOp.startRec true]).isListening = true) :=
  ⟨by decide, recording_implies_listening_when_host_ok _ (by decide)⟩

/-- Counterexample for C6 as stated: when the host `recognition.start()`
call issued by `startAnswerRecording` throws, the catch only logs, so
the state reached has recording true while listening is false — the
invariant does not hold in every reachable state. -/
theorem recording_without_listening_cex :
    (runSpeech (initSpeech true) [.startRec false]).isRecordingAnswer = true
  ∧ (runSpeech (initSpeech true) [.startRec false]).isListening = false := by decide

/-! ## C7: the voice-command handler of the practice page -/

/-- Phases of `practice/page.tsx`. -/
inductive PracticePhase
  | loading
  | question
  | evaluation
  | results
deriving DecidableEq, Repr

/-- The page state that the voice-command handler reads and writes,
restricted to the fields it can affect. -/
structure PageState where
  phase : PracticePhase
  currentIndex : Nat
  numQuestions : Nat
  speech : SpeechState
deriving DecidableEq, Repr

/-- The `handleNext` callback of `practice/page.tsx` (lines 226-237):
stop playback (an action on the playback controller only), reset the
transcript, then either advance to the next question or finish.  The
`questions.length - 1` comparison agrees with the JavaScript one on
every question count, including zero. -/
def handleNext (p : PageState) : PageState :=
  let p1 := { p with speech := resetTranscript p.speech }
  if p1.currentIndex < p1.numQuestions - 1 then
    { p1 with currentIndex := p1.currentIndex + 1, phase := .question }
  else { p1 with phase := .results }

/-- The `handleSkip` callback (lines 203-224): records a zero-score
evaluation for the current question and moves to the evaluation phase;
only the phase change is relevant to the speech controller. -/
def handleSkip (p : PageState) : PageState := { p with phase := .evaluation }

/-- The voice-command `useEffect` of `practice/page.tsx` (lines
117-147).  The page refers to `speech.startListening` and
`speech.stopListening`, names the `useSpeech` revision under `src` does
not export; per the spec's state machine (START_ANSWER starts answer
recording, opening the channel if needed; STOP_ANSWER stops it) they
are bound to `startAnswerRecording`/`stopAnswerRecording`.  No branch
touches `lastCommand` under any binding, and the REPEAT branch invokes
`speak`, which acts only on the playback controller. -/
def handleVoiceCommand (p : PageState) : PageState :=
  match p.speech.lastCommand with
  | none => p
  | some .START_ANSWER =>
    if p.phase = .question ∧ p.speech.isListening = false then
      { p with speech := startAnswerRecording true p.speech }
    else p
  | some .STOP_ANSWER =>
    if p.speech.isListening = true then
      { p with speech := stopAnswerRecording p.speech }
    else p
  | some .NEXT => if p.phase = .evaluation then handleNext p else p
  | some .SKIP => if p.phase = .question then handleSkip p else p
  | some .REPEAT => p

/-- A page state showing the evaluation of the first of three questions,
with a freshly detected NEXT voice command pending. -/
def pageCex : PageState :=
  { phase := .evaluation
    currentIndex := 0
    numQuestions := 3
    speech := runSpeech (initSpeech true) [.startListen true, .result [("次へ", true)]] }

/-- C7 (the code evaluated at the failing input): the voice-command
handler never clears the lastCommand observable.  Consuming the NEXT
command in the evaluation phase advances the page to the next question,
yet lastCommand still holds NEXT instead of null; in general the
handler leaves lastCommand exactly as it found it, and the page never
invokes `clearLastCommand`. -/
theorem handler_never_clears_lastCommand :
    (∀ p : PageState, (handleVoiceCommand p).speech.lastCommand = p.speech.lastCommand)
  ∧ (handleVoiceCommand pageCex).phase = PracticePhase.question
  ∧ (handleVoiceCommand pageCex).speech.lastCommand = some CommandSymbol.NEXT := by
  refine ⟨?_, by decide, by decide⟩
  intro p
  cases hc : p.speech.lastCommand with
  | none => simp [handleVoiceCommand, hc]
  | some c =>
    cases c <;>
      simp only [handleVoiceCommand, hc, handleNext, handleSkip, startAnswerRecording,
        startCommandListening, stopAnswerRecording, resetTranscript] <;>
      repeat' (first | exact hc | rfl | split)

/-! ## C3: playback controller (`speak`, `stopSpeaking`)

Utterances are identified by the order of the `speak` calls that
created them.  `queue` holds the submitted-but-not-finished utterances
(head = the one the host is playing or about to play), `startedIds`
those whose `onstart` fired, `resolvedIds` those whose promise has
resolved, and `cycles` counts the false-to-true transitions of the
`isSpeaking` observable. -/

structure SynthState where
  synthSupported : Bool
  isSpeaking : Bool
  queue : List Nat
  startedIds : List Nat
  resolvedIds : List Nat
  cycles : Nat
deriving DecidableEq, Repr

/-- Playback state right after initialization. -/
def initSynth (supported : Bool) : SynthState :=
  { synthSupported := supported
    isSpeaking := false
    queue := []
    startedIds := []
    resolvedIds := []
    cycles := 0 }

/-- The `speak` callback (lines 246-286) invoked with a fresh utterance
identifier.  Without synthesis support the promise resolves immediately
and nothing else happens (lines 248-252).  Otherwise `synth.cancel()`
(line 255) removes every pending utterance and the host fires an end or
error event on each; the handlers (lines 273-282) set `isSpeaking`
false and resolve those promises.  The new utterance is then submitted
(line 284). -/
def speakCall (id : Nat) (s : SynthState) : SynthState :=
  if s.synthSupported then
    { s with
      isSpeaking := if s.queue.isEmpty then s.isSpeaking else false
      resolvedIds := s.resolvedIds ++ s.queue
      queue := [id] }
  else { s with resolvedIds := s.resolvedIds ++ [id] }

/-- The `stopSpeaking` callback (lines 288-293): if synthesis exists,
`synth.cancel()` — resolving every pending utterance through its
handler — and `setIsSpeaking(false)`. -/
def stopSpeakingCall (s : SynthState) : SynthState :=
  if s.synthSupported then
    { s with isSpeaking := false, resolvedIds := s.resolvedIds ++ s.queue, queue := [] }
  else s

/-- Host delivery of `utterance.onstart` (lines 269-272) for the
current queue head: the handler sets `isSpeaking` true. -/
def hostStart (id : Nat) (s : SynthState) : SynthState :=
  match s.queue with
  | j :: _ =>
    if j = id && !(s.startedIds.contains id) then
      { s with
        isSpeaking := true
        startedIds := s.startedIds ++ [id]
        cycles := if s.isSpeaking then s.cycles else s.cycles + 1 }
    else s
  | [] => s

/-- Host delivery of `utterance.onend` (lines 273-277) for the current
queue head: the handler sets `isSpeaking` false and resolves the
promise. -/
def hostEnd (id : Nat) (s : SynthState) : SynthState :=
  match s.queue with
  | j :: rest =>
    if j = id then
      { s with isSpeaking := false, resolvedIds := s.resolvedIds ++ [id], queue := rest }
    else s
  | [] => s

/-- Host delivery of `utterance.onerror` (lines 278-282) for the
current queue head: the handler sets `isSpeaking` false and resolves
the promise — a synthesis error still resolves it. -/
def hostError (id : Nat) (s : SynthState) : SynthState :=
  match s.queue with
  | j :: rest =>
    if j = id then
      { s with isSpeaking := false, resolvedIds := s.resolvedIds ++ [id], queue := rest }
    else s
  | [] => s

/-- Events of the playback controller: the two operations of the hook
and the host synthesis callbacks. -/
inductive SynthEvent
  | speak (id : Nat)
  | stop
  | started (id : Nat)
  | ended (id : Nat)
  | errored (id : Nat)
deriving DecidableEq, Repr

/-- Dispatch of one playback event. -/
def stepSynth (s : SynthState) : SynthEvent → SynthState
  | .speak id => speakCall id s
  | .stop => stopSpeakingCall s
  | .started id => hostStart id s
  | .ended id => hostEnd id s
  | .errored id => hostError id s

/-- Run of a sequence of playback events. -/
def runSynth (s : SynthState) (es : List SynthEvent) : SynthState :=
  es.foldl stepSynth s

/-- Every event keeps each utterance either pending or resolved: no
event can drop a promise without resolving it. -/
lemma stepSynth_mem_preserved (s : SynthState) (e : SynthEvent) (id : Nat)
    (h : id ∈ s.queue ∨ id ∈ s.resolvedIds) :
    id ∈ (stepSynth s e).queue ∨ id ∈ (stepSynth s e).resolvedIds := by
  cases e with
  | speak j =>
    simp only [stepSynth, speakCall]
    split
    · right
      rcases h with h | h <;> simp [h]
    · rcases h with h | h
      · left; exact h
      · right; simp [h]
  | stop =>
    simp only [stepSynth, stopSpeakingCall]
    split
    · right
      rcases h with h | h <;> simp [h]
    · exact h
  | started j =>
    simp only [stepSynth, hostStart]
    split
    · split
      · rcases h with h | h
        · left; exact h
        · right; exact h
      · exact h
    · exact h
  | ended j =>
    simp only [stepSynth, hostEnd]
    split
    case h_1 a rest hq =>
      split
      case isTrue hj =>
        rcases h with h | h
        · rw [hq] at h
          rcases List.mem_cons.mp h with rfl | h2

          · right; simp [hj]
          · left; exact h2
        · right; simp [h]
      case isFalse => exact h
    case h_2 => exact h
  | errored j =>
    simp only [stepSynth, hostError]
    split
    case h_1 a rest hq =>
      split
      case isTrue hj =>
        rcases h with h | h
        · rw [hq] at h
          rcases List.mem_cons.mp h with rfl | h2

          · right; simp [hj]
          · left; exact h2
        · right; simp [h]
      case isFalse => exact h
    case h_2 => exact h

/-- A run keeps each utterance either pending or resolved. -/
lemma runSynth_mem_preserved :
    ∀ (es : List SynthEvent) (s : SynthState) (id : Nat),
      id ∈ s.queue ∨ id ∈ s.resolvedIds →
      id ∈ (runSynth s es).queue ∨ id ∈ (runSynth s es).resolvedIds
  | [], _, _, h => h
  | e :: rest, s, id, h =>
    runSynth_mem_preserved rest (stepSynth s e) id (stepSynth_mem_preserved s e id h)

/-- A `speak` call leaves its own utterance pending or (without
synthesis support) already resolved. -/
lemma stepSynth_speak_self (s : SynthState) (id : Nat) :
    id ∈ (stepSynth s (.speak id)).queue ∨ id ∈ (stepSynth s (.speak id)).resolvedIds := by
  simp only [stepSynth, speakCall]
  split
  · left; simp
  · right; simp

/-- After any event sequence, an utterance submitted somewhere in the
sequence is pending or resolved. -/
lemma runSynth_mem_of_speak :
    ∀ (es : List SynthEvent) (s : SynthState) (id : Nat), SynthEvent.speak id ∈ es →
      id ∈ (runSynth s es).queue ∨ id ∈ (runSynth s es).resolvedIds
  | [], _, _, hmem => absurd hmem (List.not_mem_nil _)
  | e :: rest, s, id, hmem => by
    rcases List.mem_cons.mp hmem with heq | hrest
    · rw [show e = SynthEvent.speak id from heq.symm]
      exact runSynth_mem_preserved rest _ id (stepSynth_speak_self s id)
    · exact runSynth_mem_of_speak rest (stepSynth s e) id hrest

/-- C3: every utterance submitted through `speak` is, at the end of any
event sequence, either still pending in the host or resolved — it is
resolved on normal end, on synthesis error, on cancellation, and
immediately when synthesis is unsupported, so the caller is never left
waiting once the host disposes of the utterance.  A later `speak` while
an utterance is in flight resolves that utterance at once.  In the
preemption scenario — speak A then speak B submitted before the host
starts A, then B plays to completion — both promises are resolved,
utterance A never starts, and the run has exactly one
speaking=true→false cycle, belonging to B. -/
theorem speak_always_resolves :
    (∀ (es : List SynthEvent) (b : Bool) (id : Nat), SynthEvent.speak id ∈ es →
        id ∈ (runSynth (initSynth b) es).queue ∨ id ∈ (runSynth (initSynth b) es).resolvedIds)
  ∧ (∀ (s : SynthState) (id j : Nat), s.synthSupported = true → id ∈ s.queue →
        id ∈ (stepSynth s (.speak j)).resolvedIds)
  ∧ runSynth (initSynth true) [.speak 1, .speak 2, .started 2, .ended 2]
      = { synthSupported := true, isSpeaking := false, queue := [], startedIds := [2],
          resolvedIds := [1, 2], cycles := 1 }
  ∧ (stepSynth (initSynth false) (.speak 5)).resolvedIds = [5] := by
  refine ⟨?_, ?_, by decide, by decide⟩
  · intro es b id hmem
    exact runSynth_mem_of_speak es (initSynth b) id hmem
  · intro s id j hsup hq
    simp [stepSynth, speakCall, hsup, hq]

/-- A playback state in which utterance 1 is playing. -/
def inflightSynth : SynthState :=
  { synthSupported := true
    isSpeaking := true
    queue := [1]
    startedIds := [1]
    resolvedIds := []
    cycles := 1 }

/-- Witness for C3: in the preemption run, utterance 1's promise is
pending or resolved (by the third conjunct it is in fact resolved), and
a later `speak` immediately resolves an in-flight utterance. -/
theorem speak_always_resolves_witness :
    (1 ∈ (runSynth (initSynth true) [SynthEvent.speak 1, .speak 2, .started 2, .ended 2]).queue
      ∨ 1 ∈ (runSynth (initSynth true)
          [SynthEvent.speak 1, .speak 2, .started 2, .ended 2]).resolvedIds)
  ∧ 1 ∈ (stepSynth inflightSynth (.speak 2)).resolvedIds :=
  ⟨speak_always_resolves.1 _ true 1 (by decide),
   speak_always_resolves.2.1 _ 1 2 rfl (by decide)⟩

/-! ## C10: generator-service wrappers (`lib/gemini.ts`) -/

/-- JSON values; integer numerics cover the service's replies. -/
inductive Json
  | null
  | bool (b : Bool)
  | num (n : Int)
  | str (s : String)
  | arr (elems : List Json)
  | obj (fields : List (String × Json))

/-- The left brace character. -/
def lbrace : Char := Char.ofNat 123

/-- The right brace character. -/
def rbrace : Char := Char.ofNat 125

/-- Model of the greedy brace regex applied to the reply (lines 52, 101
and 156 of `lib/gemini.ts`): the match runs from the first left brace
to the last right brace when the former precedes the latter, and fails
otherwise. -/
def jsonMatch (s : String) : Option String :=
  let cs := s.data
  match cs.findIdx? (· == lbrace), (cs.reverse.findIdx? (· == rbrace)) with
  | some i, some k =>
    let j := cs.length - 1 - k
    if i < j then some (String.mk ((cs.drop i).take (j - i + 1))) else none
  | _, _ => none

/-- JSON whitespace. -/
def isJsonWs (c : Char) : Bool := c == ' ' || c == '\n' || c == '\t' || c == '\r'

/-- Drop leading JSON whitespace. -/
def skipWs (cs : List Char) : List Char := cs.dropWhile isJsonWs

/-- ASCII digit test. -/
def isDigitB (c : Char) : Bool := '0' ≤ c && c ≤ '9'

/-- Split off a leading run of digits. -/
def takeDigits (cs : List Char) : List Char × List Char :=
  (cs.takeWhile isDigitB, cs.dropWhile isDigitB)

/-- Numeric value of a digit run, most significant first. -/
def digitsToNat (ds : List Char) : Nat :=
  ds.foldl (fun a c => a * 10 + (c.toNat - 48)) 0

/-- Body of a JSON string after its opening quote, up to the closing
quote (the escape-free fragment the service exchanges). -/
def parseStringBody (cs : List Char) : Option (String × List Char) :=
  match cs.dropWhile (fun c => !(c == '"')) with
  | _ :: rest => some (String.mk (cs.takeWhile (fun c => !(c == '"'))), rest)
  | [] => none

mutual

/-- Model of the host builtin `JSON.parse` on the JSON fragment this
service exchanges (escape-free strings, integer numbers): parse one
value, returning it with the remaining input.  The fuel argument bounds
the nesting depth. -/
def parseVal : Nat → List Char → Option (Json × List Char)
  | 0, _ => none
  | fuel + 1, cs =>
    match skipWs cs with
    | [] => none
    | c :: rest =>
      if c == '"' then
        (parseStringBody rest).map (fun p => (Json.str p.1, p.2))
      else if c == lbrace then
        (parseFields fuel rest true).map (fun p => (Json.obj p.1, p.2))
      else if c == '[' then
        (parseElems fuel rest true).map (fun p => (Json.arr p.1, p.2))
      else if c == 'n' then
        match rest with
        | 'u' :: 'l' :: 'l' :: r => some (Json.null, r)
        | _ => none
      else if c == 't' then
        match rest with
        | 'r' :: 'u' :: 'e' :: r => some (Json.bool true, r)
        | _ => none
      else if c == 'f' then
        match rest with
        | 'a' :: 'l' :: 's' :: 'e' :: r => some (Json.bool false, r)
        | _ => none
      else if c == '-' then
        match takeDigits rest with
        | ([], _) => none
        | (ds, r) => some (Json.num (-(digitsToNat ds : Int)), r)
      else if isDigitB c then
        match takeDigits (c :: rest) with
        | ([], _) => none
        | (ds, r) => some (Json.num (digitsToNat ds), r)
      else none

/-- Elements of an array after the opening bracket; `first` is true
while no element has been read, so that a closing bracket yields the
empty array but trailing commas fail. -/
def parseElems : Nat → List Char → Bool → Option (List Json × List Char)
  | 0, _, _ => none
  | fuel + 1, cs, first =>
    let cs1 := skipWs cs
    if cs1.head? == some ']' && first then
      some ([], cs1.tail)
    else
      match parseVal fuel cs1 with
      | none => none
      | some (v, rest) =>
        match skipWs rest with
        | ',' :: r2 =>
          match parseElems fuel r2 false with
          | some (vs, r3) => some (v :: vs, r3)
          | none => none
        | ']' :: r2 => some ([v], r2)
        | _ => none

/-- Fields of an object after the opening brace; `first` as in
`parseElems`. -/
def parseFields : Nat → List Char → Bool → Option (List (String × Json) × List Char)
  | 0, _, _ => none
  | fuel + 1, cs, first =>
    let cs1 := skipWs cs
    if cs1.head? == some rbrace && first then
      some ([], cs1.tail)
    else
      match cs1 with
      | '"' :: r0 =>
        match parseStringBody r0 with
        | none => none
        | some (k, r1) =>
          match skipWs r1 with
          | ':' :: r2 =>
            match parseVal fuel r2 with
            | none => none
            | some (v, r3) =>
              match skipWs r3 with
              | ',' :: r4 =>
                match parseFields fuel r4 false with
                | some (fs, r5) => some ((k, v) :: fs, r5)
                | none => none
              | c :: r4 => if c == rbrace then some ([(k, v)], r4) else none
              | [] => none
          | _ => none
      | _ => none

end

/-- Model of `JSON.parse(text)`: one value followed by only
whitespace. -/
def jsonParse (text : String) : Option Json :=
  match parseVal (text.data.length + 1) text.data with
  | some (v, rest) => if skipWs rest = [] then some v else none
  | none => none

/-- Model of the JavaScript property access `o[k]`: `none` is
`undefined`. -/
def getField : Json → String → Option Json
  | .obj fs, k => (fs.find? (fun f => f.1 == k)).map (fun f => f.2)
  | _, _ => none

/-- Own enumerable properties contributed by `...parsed` in an object
literal: an object spreads its fields, an array or string its indexed
elements, other primitives nothing. -/
def jsSpreadFields : Json → List (String × Json)
  | .obj fs => fs
  | .arr l => l.enum.map (fun p => (toString p.1, p.2))
  | .str s => s.data.enum.map (fun p => (toString p.1, Json.str (String.mk [p.2])))
  | _ => []

/-- Writing a field of an object literal: a later duplicate key
overrides the earlier value in place. -/
def setFieldLast (fs : List (String × Json)) (k : String) (v : Json) :
    List (String × Json) :=
  if fs.any (fun f => f.1 == k) then
    fs.map (fun f => if f.1 == k then (k, v) else f)
  else fs ++ [(k, v)]

/-- The object literal that spreads `j` over the base fields. -/
def objSpread (base : List (String × Json)) (j : Json) : Json :=
  Json.obj ((jsSpreadFields j).foldl (fun acc f => setFieldLast acc f.1 f.2) base)

/-- The reply handling of `generateSimpleQuestions` (lines 49-59):
extract the braced block of the model's reply, `JSON.parse` it, and
return `parsed.questions` — with no validation of its shape. -/
def generateSimpleQuestionsResult (response : String) : Except String (Option Json) :=
  match jsonMatch response with
  | none => .error "Failed to parse questions from response"
  | some block =>
    match jsonParse block with
    | none => .error "SyntaxError: unexpected token in JSON"
    | some parsed => .ok (getField parsed "questions")

/-- The reply handling of `generateScenario` (lines 98-107): extract
and parse, returning the parsed value itself with no shape
validation. -/
def generateScenarioResult (response : String) : Except String Json :=
  match jsonMatch response with
  | none => .error "Failed to parse scenario from response"
  | some block =>
    match jsonParse block with
    | none => .error "SyntaxError: unexpected token in JSON"
    | some parsed => .ok parsed

/-- The reply handling of `evaluateAnswer` (lines 153-166): extract and
parse, returning the object literal that spreads `parsed` over a
`questionId` field, with no shape validation. -/
def evaluateAnswerResult (response : String) : Except String Json :=
  match jsonMatch response with
  | none => .error "Failed to parse evaluation from response"
  | some block =>
    match jsonParse block with
    | none => .error "SyntaxError: unexpected token in JSON"
    | some parsed => .ok (objSpread [("questionId", Json.str "")] parsed)

/-- C10 (amended): each generator-service wrapper fails with a parse
error exactly when the reply contains no braced block or the block is
not valid JSON; a reply whose braced block is valid JSON is returned as
a value even when it does not match the expected shape — shape is not
validated, and a missing `questions` field comes back as undefined. -/
theorem generator_parse_error_policy :
    (∀ r : String, jsonMatch r = none →
        generateSimpleQuestionsResult r = .error "Failed to parse questions from response"
      ∧ generateScenarioResult r = .error "Failed to parse scenario from response"
      ∧ evaluateAnswerResult r = .error "Failed to parse evaluation from response")
  ∧ (∀ r b : String, jsonMatch r = some b → jsonParse b = none →
        generateSimpleQuestionsResult r = .error "SyntaxError: unexpected token in JSON"
      ∧ generateScenarioResult r = .error "SyntaxError: unexpected token in JSON"
      ∧ evaluateAnswerResult r = .error "SyntaxError: unexpected token in JSON")
  ∧ (∀ (r b : String) (v : Json), jsonMatch r = some b → jsonParse b = some v →
        generateSimpleQuestionsResult r = .ok (getField v "questions")
      ∧ generateScenarioResult r = .ok v
      ∧ evaluateAnswerResult r = .ok (objSpread [("questionId", Json.str "")] v)) := by
  refine ⟨?_, ?_, ?_⟩
  · intro r h
    exact ⟨by simp [generateSimpleQuestionsResult, h],
      by simp [generateScenarioResult, h], by simp [evaluateAnswerResult, h]⟩
  · intro r b h hp
    exact ⟨by simp [generateSimpleQuestionsResult, h, hp],
      by simp [generateScenarioResult, h, hp], by simp [evaluateAnswerResult, h, hp]⟩
  · intro r b v h hp
    exact ⟨by simp [generateSimpleQuestionsResult, h, hp],
      by simp [generateScenarioResult, h, hp], by simp [evaluateAnswerResult, h, hp]⟩

/-- Witness for C10 (amended): a reply without a braced block fails, a
braced block that is not JSON fails, and a well-formed block is
returned as a value. -/
theorem generator_parse_error_policy_witness :
    generateSimpleQuestionsResult "no json here" = .error "Failed to parse questions from response"
  ∧ generateScenarioResult "\x7bnot json\x7d" = .error "SyntaxError: unexpected token in JSON"
  ∧ evaluateAnswerResult "\x7b\"score\": 7\x7d"
      = .ok (objSpread [("questionId", Json.str "")] (Json.obj [("score", Json.num 7)])) :=
  ⟨(generator_parse_error_policy.1 "no json here" rfl).1,
   (generator_parse_error_policy.2.1 "\x7bnot json\x7d" "\x7bnot json\x7d" rfl rfl).2.1,
   (generator_parse_error_policy.2.2 "\x7b\"score\": 7\x7d" "\x7b\"score\": 7\x7d"
      (Json.obj [("score", Json.num 7)]) rfl rfl).2.2⟩

/-- Counterexample for C10 as stated: replies whose braced block is
valid JSON of the wrong shape make all three calls return a value
instead of failing with a parse error — `generateSimpleQuestions`
returns the undefined `questions` field, the other two return the
mis-shaped object. -/
theorem generator_no_shape_validation_cex :
    generateSimpleQuestionsResult "\x7b\"a\": 1\x7d" = .ok none
  ∧ generateScenarioResult "reply: \x7b\"a\": 1\x7d" = .ok (Json.obj [("a", Json.num 1)])
  ∧ evaluateAnswerResult "\x7b\x7d" = .ok (Json.obj [("questionId", Json.str "")]) :=
  ⟨rfl, rfl, rfl⟩

end OralExam
